import Mathlib

/-!
Verification of the coffee-machine simulator core
(`coffee_machine_simulator.py`, `web_server.py`).

The Python dictionaries (`simulator_status`, its `counters`/`settings`/`recipes`
documents) are embedded as partial maps `String → Option _`.  Random draws
(`random.randint`, `random.uniform`, `random.choice`) are passed in as explicit
parameters, with their documented ranges appearing as hypotheses of the
theorems; functions whose only randomness is a final `random.randint(lo, hi)`
are embedded as the pair `(lo, hi)` of bounds together with an arbitrary draw
inside those bounds.  Timestamps (`datetime` values and their `isoformat`
strings) are embedded as rational numbers of seconds.  Python `int(x)` and
`round(x)` on exact values are `pyInt` (truncation toward zero) and `pyRound`
(round half to even).  The single `try`/`except` of `_update_and_send_counters`
(lines 181/283) is embedded faithfully: a `KeyError` raised by the
`counters_data['total']` lookup at line 247 keeps the mutations already made
and skips every remaining sub-step of that function.
-/

namespace CoffeeSim

/-- Python `int(x)` applied to an exact rational: truncation toward zero. -/
def pyInt (q : ℚ) : ℤ := if 0 ≤ q then ⌊q⌋ else ⌈q⌉

/-- Python `round(x)` applied to an exact rational: round half to even. -/
def pyRound (q : ℚ) : ℤ :=
  if q - ⌊q⌋ < 1/2 then ⌊q⌋
  else if 1/2 < q - ⌊q⌋ then ⌊q⌋ + 1
  else if ⌊q⌋ % 2 = 0 then ⌊q⌋ else ⌊q⌋ + 1

/-- Python `round(x, 1)` on an exact rational. -/
def pyRound1 (q : ℚ) : ℚ := (pyRound (q * 10) : ℚ) / 10

/-- One counter dict entry: `{'value': …, 'timestamp': …, 'reception_timestamp': …}`. -/
structure CounterEntry where
  value : ℚ
  timestamp : ℚ
  reception_timestamp : ℚ
deriving DecidableEq

/-- One bucket of `counters['data']` (e.g. `counters_data['group1']`). -/
def Bucket : Type := String → Option CounterEntry

/-- Python `bucket[key] = entry`. -/
def Bucket.set (b : Bucket) (k : String) (e : CounterEntry) : Bucket :=
  fun k' => if k' = k then some e else b k'

/-- The dict `simulator_status['counters']['data']`. -/
def CountersData : Type := String → Option Bucket

/-- Python `counters_data[group] = bucket`. -/
def CountersData.set (d : CountersData) (g : String) (b : Bucket) : CountersData :=
  fun g' => if g' = g then some b else d g'

/-- The dict `simulator_status['counters']` with its `'data'` key. -/
structure CountersDoc where
  data : CountersData

/-- The dict `simulator_status['settings']['data']['manteinance']`. -/
structure ManteinanceSettings where
  residualCoffeeForManteinance : Option ℤ
  waterFilterDuration : Option ℤ

/-- The dict `simulator_status['settings']['data']`. -/
structure SettingsData where
  manteinance : Option ManteinanceSettings

/-- The dict `simulator_status['settings']`. -/
structure SettingsDoc where
  data : Option SettingsData

/-- One entry of `simulator_status['recipes']`: the per-group recipe dict with
its optional `'targetTime'` table keyed by the coffee type as a string. -/
structure RecipeData where
  targetTime : Option (String → Option ℤ)

/-- The `simulator_status` dict, with the three top-level keys the simulator
reads; an absent key is `none`. -/
structure SimStatus where
  counters : Option CountersDoc
  settings : Option SettingsDoc
  recipes : Option (String → Option RecipeData)

/-- Mutable fields of `CoffeeMachineSimulator` used by the counter/maintenance
logic: `simulator_status`, `total_litres_tens_ml`, `initial_filter_duration`. -/
structure MachineState where
  status : SimStatus
  total_litres_tens_ml : ℤ
  initial_filter_duration : ℤ

/-- A value sent to the telemetry sink. -/
inductive TValue where
  | int : ℤ → TValue
  | num : ℚ → TValue
  | bool : Bool → TValue
deriving DecidableEq

/-- One `device.send(interface, path, value, timestamp)` call. -/
structure Emission where
  interface : String
  path : String
  value : TValue
  timestamp : ℚ
deriving DecidableEq

/-- Embeds `_get_residual_coffee_setting`: the `residualCoffeeForManteinance`
maintenance setting, defaulting to 10000 when any level of the chain is absent. -/
def getResidualCoffeeSetting (status : SimStatus) : ℤ :=
  match status.settings with
  | some sdoc =>
    match sdoc.data with
    | some sdata =>
      match sdata.manteinance with
      | some m =>
        match m.residualCoffeeForManteinance with
        | some v => v
        | none => 10000
      | none => 10000
    | none => 10000
  | none => 10000

/-- Embeds `_get_water_filter_duration_setting`: the `waterFilterDuration` maintenance
setting, defaulting to 5000 when any level of the chain is absent. -/
def getWaterFilterDurationSetting (status : SimStatus) : ℤ :=
  match status.settings with
  | some sdoc =>
    match sdoc.data with
    | some sdata =>
      match sdata.manteinance with
      | some m =>
        match m.waterFilterDuration with
        | some v => v
        | none => 5000
      | none => 5000
    | none => 5000
  | none => 5000

/-- Embeds `CoffeeMachineSimulator.__init__` (the fields relevant here):
zero litres dispensed, filter duration read once from the settings. -/
def initMachineState (status : SimStatus) : MachineState :=
  { status := status
    total_litres_tens_ml := 0
    initial_filter_duration := getWaterFilterDurationSetting status }

/-- The f-string `f"k{coffee_type}"`. -/
def coffeeKey (coffee_type : ℤ) : String := "k" ++ toString coffee_type

/-- Embeds `_update_residual_coffee_activation` (lines 286–324): lazily create the
`total.residualCoffeeActivation` counter from the maintenance setting (or
10000), decrement it by 1, and send the new value.  The function's own
`try`/`except` makes a missing `counters` document a logged no-op. -/
def updateResidualCoffeeActivation (status : SimStatus) (t : ℚ) :
    SimStatus × List Emission :=
  match status.counters with
  | none => (status, [])
  | some cdoc =>
    let counters_data := cdoc.data
    let tbucket : Bucket := (counters_data "total").getD (fun _ => none)
    let current_value : ℚ :=
      match tbucket "residualCoffeeActivation" with
      | some e => e.value
      | none => (getResidualCoffeeSetting status : ℚ)
    let new_value := current_value - 1
    let tbucket := Bucket.set tbucket "residualCoffeeActivation" ⟨new_value, t, t⟩
    let counters_data := CountersData.set counters_data "total" tbucket
    ({ status with counters := some ⟨counters_data⟩ },
     [⟨"it.d8pro.device.Counters02", "/residualCoffeeActivation", .num new_value, t⟩])

/-- Embeds `_update_maintenance_counters` (lines 366–407): add the brew's flow to the
cumulative litres tally, then send `residualPumpActivation` (mirroring the
current `residualCoffeeActivation`, 0 when absent) and `residualFilterLiters`
(`int(initial_filter_duration - total_litres_tens_ml / 100)`).  The litres
tally is updated before the counters lookup, so it survives the function's
`except` branch. -/
def updateMaintenanceCounters (st : MachineState) (flow_total : ℤ) (t : ℚ) :
    MachineState × List Emission :=
  let st := { st with total_litres_tens_ml := st.total_litres_tens_ml + flow_total }
  match st.status.counters with
  | none => (st, [])
  | some cdoc =>
    let residual_coffee_value : ℚ :=
      match cdoc.data "total" with
      | some tb =>
        match tb "residualCoffeeActivation" with
        | some e => e.value
        | none => 0
      | none => 0
    let total_litres : ℚ := (st.total_litres_tens_ml : ℚ) / 100
    let residual_filter_litres : ℚ := (st.initial_filter_duration : ℚ) - total_litres
    let residual_filter_litres_int : ℤ := pyInt residual_filter_litres
    (st,
     [⟨"it.d8pro.device.TelemetrySlow01", "/manteinance/residualPumpActivation",
       .num residual_coffee_value, t⟩,
      ⟨"it.d8pro.device.TelemetrySlow01", "/manteinance/residualFilterLiters",
       .int residual_filter_litres_int, t⟩])

/-- Embeds `_update_and_send_counters` (lines 175–284).  Guard: no `counters` document
means print-and-return.  Then, inside one `try` block: compute the coffee
increment, create-or-increment the group's `k{type}` and `totalCoffee` counters
(sending each), then look up `counters_data['total']` — when the `total`
bucket is missing that lookup raises `KeyError`, which the `except` at line 283
catches, keeping the group-level mutations and skipping every remaining
sub-step.  Otherwise increment `total.totalCoffee` and `total.totalVolume`
when those keys exist (sending each), then run the residual-coffee and
maintenance updates, which carry their own guards. -/
def updateAndSendCounters (st : MachineState) (group : String) (coffee_type : ℤ)
    (flow_total : ℤ) (t : ℚ) : MachineState × List Emission :=
  match st.status.counters with
  | none => (st, [])
  | some cdoc =>
    let counters_data := cdoc.data
    let coffee_increment : ℚ :=
      if coffee_type = 1 ∨ coffee_type = 2 then 1
      else if coffee_type = 3 ∨ coffee_type = 4 then 2
      else 1
    let ckey := coffeeKey coffee_type
    let gbucket : Bucket := (counters_data group).getD (fun _ => none)
    let kval : ℚ :=
      (match gbucket ckey with
       | some e => e.value
       | none => 0) + coffee_increment
    let gbucket := Bucket.set gbucket ckey ⟨kval, t, t⟩
    let em1 : Emission :=
      ⟨"it.d8pro.device.Counters02", "/" ++ group ++ "/" ++ ckey, .num kval, t⟩
    let gtotal : ℚ :=
      (match gbucket "totalCoffee" with
       | some e => e.value
       | none => 0) + coffee_increment
    let gbucket := Bucket.set gbucket "totalCoffee" ⟨gtotal, t, t⟩
    let em2 : Emission :=
      ⟨"it.d8pro.device.Counters02", "/" ++ group ++ "/totalCoffee", .num gtotal, t⟩
    let counters_data := CountersData.set counters_data group gbucket
    match counters_data "total" with
    | none =>
      ({ st with status := { st.status with counters := some ⟨counters_data⟩ } },
       [em1, em2])
    | some tbucket =>
      let step3 : Bucket × List Emission :=
        match tbucket "totalCoffee" with
        | some e =>
          (Bucket.set tbucket "totalCoffee" ⟨e.value + coffee_increment, t, t⟩,
           [⟨"it.d8pro.device.Counters02", "/total/totalCoffee",
             .num (e.value + coffee_increment), t⟩])
        | none => (tbucket, [])
      let tbucket := step3.1
      let volume_increment : ℚ := (flow_total : ℚ) / 10
      let step4 : Bucket × List Emission :=
        match tbucket "totalVolume" with
        | some e =>
          (Bucket.set tbucket "totalVolume" ⟨e.value + volume_increment, t, t⟩,
           [⟨"it.d8pro.device.Counters02", "/total/totalVolume",
             .num (e.value + volume_increment), t⟩])
        | none => (tbucket, [])
      let tbucket := step4.1
      let counters_data := CountersData.set counters_data "total" tbucket
      let st := { st with status := { st.status with counters := some ⟨counters_data⟩ } }
      let step5 := updateResidualCoffeeActivation st.status t
      let st := { st with status := step5.1 }
      let step6 := updateMaintenanceCounters st flow_total t
      (step6.1, [em1, em2] ++ step3.2 ++ step4.2 ++ step5.2 ++ step6.2)

/-- Look up one counter value in the machine state: `bucket` is the key of
`counters['data']` (`group1`..`group3`, `total`), `key` the counter name. -/
def counterValue (st : MachineState) (bucket key : String) : Option ℚ :=
  match st.status.counters with
  | none => none
  | some cdoc =>
    match cdoc.data bucket with
    | none => none
    | some b =>
      match b key with
      | none => none
      | some e => some e.value

/-- A sequence of brews `(group, coffee_type, flow_total)` applied through
`_update_and_send_counters` (state part only). -/
def applyBrews (st : MachineState) (brews : List (String × ℤ × ℤ)) (t : ℚ) :
    MachineState :=
  brews.foldl (fun s b => (updateAndSendCounters s b.1 b.2.1 b.2.2 t).1) st

/-- The `total.residualCoffeeActivation` slot of the machine state: `none` when
the counters document or the `total` bucket is missing, `some none` when the
bucket exists but the counter has not been created, `some (some v)` when the
counter holds value `v`. -/
def residualSlot (st : MachineState) : Option (Option ℚ) :=
  match st.status.counters with
  | none => none
  | some cdoc =>
    match cdoc.data "total" with
    | none => none
    | some tb =>
      match tb "residualCoffeeActivation" with
      | none => some none
      | some e => some (some e.value)

/-- The simulator's temperature tracking fields: `last_temp_update` and
`current_temps`, both keyed by group name. -/
structure TempState where
  last_temp_update : String → Option ℚ
  current_temps : String → Option ℚ

/-- Embeds `_get_temperature_setpoint` (lines 551–591): the per-group default
setpoints, 90.0 for an unknown group. -/
def getTemperatureSetpoint (group : String) : ℚ :=
  if group = "group1" then 92
  else if group = "group2" then 90
  else if group = "group3" then 92.5
  else 90

/-- Embeds `_update_group_temperature` (lines 512–549): `u` is the
`random.uniform(-5.0, 5.0)` draw.  The temperature is rounded to one decimal,
converted to tenths with `int(current_temp * 10)`, stored, and sent; the update
time is recorded unconditionally. -/
def updateGroupTemperature (temp : TempState) (group : String) (now : ℚ)
    (u : ℚ) : TempState × List Emission :=
  let setpoint := getTemperatureSetpoint group
  let current_temp := pyRound1 (setpoint + u)
  let temp_tenths := pyInt (current_temp * 10)
  ({ last_temp_update := fun g => if g = group then some now else temp.last_temp_update g
     current_temps := fun g => if g = group then some current_temp else temp.current_temps g },
   [⟨"it.d8pro.device.TelemetryFast01", "/" ++ group ++ "/currentTemp",
     .int temp_tenths, now⟩])

/-- Embeds `_check_and_update_temperature` (lines 484–510): fire on the first call for
a group, otherwise fire iff the elapsed time reaches a freshly drawn
`update_interval = random.randint(600, 1200)`. -/
def checkAndUpdateTemperature (temp : TempState) (group : String) (now : ℚ)
    (update_interval : ℤ) (u : ℚ) : TempState × List Emission :=
  match temp.last_temp_update group with
  | none => updateGroupTemperature temp group now u
  | some last =>
    let time_diff := now - last
    if (update_interval : ℚ) ≤ time_diff then updateGroupTemperature temp group now u
    else (temp, [])

/-- Embeds `_get_realistic_wait_time` (lines 409–467), embedded as the
`(min_wait, max_wait)` bounds of the final `random.randint` draw. -/
def getRealisticWaitTimeBounds (current_hour : ℤ) : ℤ × ℤ :=
  let bv : ℤ × ℤ :=
    if 7 ≤ current_hour ∧ current_hour < 10 then (200, 60)
    else if 12 ≤ current_hour ∧ current_hour < 14 then (220, 60)
    else if 10 ≤ current_hour ∧ current_hour < 12 then (360, 120)
    else if 14 ≤ current_hour ∧ current_hour < 18 then (720, 180)
    else (2580, 600)
  let base_wait := bv.1
  let variation := bv.2
  (max 30 (base_wait - variation), base_wait + variation)

/-- Embeds `_get_erog_time_for_coffee_type` of `coffee_machine_simulator.py`
(lines 593–629), embedded as the bounds of the final `random.randint` draw.
The recipe branch (coffee types 1–4 with a `targetTime` entry) uses the
variation `int(target_time * 0.15)` with a floor of 50 on the minimum; every
other case falls back to `randint(150, 350)`. -/
def erogTimeBounds (status : SimStatus) (group : String) (coffee_type : ℤ) :
    ℤ × ℤ :=
  if coffee_type = 1 ∨ coffee_type = 2 ∨ coffee_type = 3 ∨ coffee_type = 4 then
    match status.recipes with
    | some recipes =>
      match recipes group with
      | some recipe_data =>
        match recipe_data.targetTime with
        | some tt =>
          match tt (toString coffee_type) with
          | some target_time =>
            let variation := pyInt ((target_time : ℚ) * (15 / 100))
            let min_time := target_time - variation
            let max_time := target_time + variation
            let min_time := max min_time 50
            (min_time, max_time)
          | none => (150, 350)
        | none => (150, 350)
      | none => (150, 350)
    | none => (150, 350)
  else (150, 350)

/-- Embeds `_get_erog_time_for_coffee_type` of `web_server.py` (lines 349–385):
identical to the simulator's, except the variation is
`int(target_time * 0.35)`. -/
def webErogTimeBounds (status : SimStatus) (group : String) (coffee_type : ℤ) :
    ℤ × ℤ :=
  if coffee_type = 1 ∨ coffee_type = 2 ∨ coffee_type = 3 ∨ coffee_type = 4 then
    match status.recipes with
    | some recipes =>
      match recipes group with
      | some recipe_data =>
        match recipe_data.targetTime with
        | some tt =>
          match tt (toString coffee_type) with
          | some target_time =>
            let variation := pyInt ((target_time : ℚ) * (35 / 100))
            let min_time := target_time - variation
            let max_time := target_time + variation
            let min_time := max min_time 50
            (min_time, max_time)
          | none => (150, 350)
        | none => (150, 350)
      | none => (150, 350)
    | none => (150, 350)
  else (150, 350)

/-- Embeds `_brew_coffee` (lines 100–149): on a connected device, send the three fast
telemetry points (`coffeeType`, `erogTime`, `flowTotal`), then run the counter
update, then the temperature check.  `coffee_type`, `erog_time` and
`flow_total` are the random draws made at the top of the function;
`update_interval` and `u` are the temperature draws. -/
def brewCoffee (st : MachineState) (temp : TempState) (connected : Bool)
    (group : String) (coffee_type erog_time flow_total : ℤ)
    (update_interval : ℤ) (u : ℚ) (t : ℚ) :
    MachineState × TempState × List Emission :=
  if connected then
    let em1 : Emission :=
      ⟨"it.d8pro.device.TelemetryFast01", "/" ++ group ++ "/coffeeType",
       .int coffee_type, t⟩
    let em2 : Emission :=
      ⟨"it.d8pro.device.TelemetryFast01", "/" ++ group ++ "/erogTime",
       .int erog_time, t⟩
    let em3 : Emission :=
      ⟨"it.d8pro.device.TelemetryFast01", "/" ++ group ++ "/flowTotal",
       .int flow_total, t⟩
    let step4 := updateAndSendCounters st group coffee_type flow_total t
    let step5 := checkAndUpdateTemperature temp group t update_interval u
    (step4.1, step5.1, [em1, em2, em3] ++ step4.2 ++ step5.2)
  else (st, temp, [])

/-- The JSON body of a `/api/brew_coffee` request: `data.get('coffee_type')`
and `data.get('group', 'group1')`. -/
structure BrewRequest where
  coffee_type : Option ℤ
  group : Option String

/-- The JSON response of the `/api/brew_coffee` route: an error message with
its HTTP status code, or the success payload. -/
inductive BrewResult where
  | err : String → ℤ → BrewResult
  | ok : ℤ → String → ℤ → ℤ → BrewResult

/-- Number of iterations of `manual_brew_coffee`'s flow-rate loop:
`brewingtime` starts at `erog_time` and drops by 20 until negative, sending one
`flowRate` point per iteration. -/
def flowRateCount (erog_time : ℤ) : ℕ :=
  if erog_time < 0 then 0 else erog_time.toNat / 20 + 1

/-- The `flowRate` emissions of `manual_brew_coffee`'s loop (lines 295–307);
`flow_draws n` is the n-th `random.randint(10, 60)` draw. -/
def flowRateEmissions (group : String) (t : ℚ) (flow_draws : ℕ → ℤ) :
    ℕ → List Emission
  | 0 => []
  | n + 1 =>
    flowRateEmissions group t flow_draws n ++
      [⟨"it.d8pro.device.TelemetryFast01", "/" ++ group ++ "/flowRate",
        .int (flow_draws n), t⟩]

/-- Embeds `manual_brew_coffee` (lines 280–347): on a connected device, run the
flow-rate loop, send the three fast telemetry points, and — when a simulator
reference is set — apply `_update_and_send_counters`.  Returns the new
simulator state, the emissions, and the `success` flag. -/
def manualBrewCoffee (sim : Option MachineState) (connected : Bool)
    (coffee_type : ℤ) (group : String) (erog_time flow_total : ℤ)
    (flow_draws : ℕ → ℤ) (t : ℚ) :
    Option MachineState × List Emission × Bool :=
  if connected then
    let emsFlow := flowRateEmissions group t flow_draws (flowRateCount erog_time)
    let em1 : Emission :=
      ⟨"it.d8pro.device.TelemetryFast01", "/" ++ group ++ "/coffeeType",
       .int coffee_type, t⟩
    let em2 : Emission :=
      ⟨"it.d8pro.device.TelemetryFast01", "/" ++ group ++ "/erogTime",
       .int erog_time, t⟩
    let em3 : Emission :=
      ⟨"it.d8pro.device.TelemetryFast01", "/" ++ group ++ "/flowTotal",
       .int flow_total, t⟩
    match sim with
    | some st =>
      let step := updateAndSendCounters st group coffee_type flow_total t
      (some step.1, emsFlow ++ [em1, em2, em3] ++ step.2, true)
    | none => (none, emsFlow ++ [em1, em2, em3], true)
  else (sim, [], false)

/-- The `/api/brew_coffee` route handler `brew_coffee` (lines 238–278):
validate the body (`coffee_type` truthy and in `range(1, 8)`, group one of
`group1`..`group3`), check connectivity, then delegate to
`manual_brew_coffee`.  Returns the response plus the (possibly updated)
simulator state and the emissions. -/
def brewCoffeeRoute (sim : Option MachineState) (connected : Bool)
    (data : Option BrewRequest) (erog_time flow_total : ℤ)
    (flow_draws : ℕ → ℤ) (t : ℚ) :
    BrewResult × Option MachineState × List Emission :=
  match data with
  | none => (.err "No data provided" 400, sim, [])
  | some req =>
    let group := req.group.getD "group1"
    match req.coffee_type with
    | none => (.err "Invalid coffee type. Must be 1-7" 400, sim, [])
    | some v =>
      if v = 0 ∨ v < 1 ∨ 7 < v then
        (.err "Invalid coffee type. Must be 1-7" 400, sim, [])
      else if ¬ (group = "group1" ∨ group = "group2" ∨ group = "group3") then
        (.err "Invalid group. Must be group1, group2, or group3" 400, sim, [])
      else if ¬ connected then
        (.err "Coffee machine not connected" 500, sim, [])
      else
        match manualBrewCoffee sim connected v group erog_time flow_total
            flow_draws t with
        | (sim2, ems, true) => (.ok v group erog_time flow_total, sim2, ems)
        | (sim2, ems, false) => (.err "Failed to brew coffee" 500, sim2, ems)

/-- A temperature state with one recorded update, for evaluating the
temperature-window property at a concrete input. -/
def tempState1 : TempState :=
  { last_temp_update := fun g => if g = "group1" then some 1000 else none
    current_temps := fun _ => none }

/-- A fresh temperature state (no update recorded yet). -/
def tempState0 : TempState :=
  { last_temp_update := fun _ => none
    current_temps := fun _ => none }

/-- A machine state whose status document lacks the `counters` section. -/
def noCountersState : MachineState := initMachineState ⟨none, none, none⟩

/-- A hydrated `group1` bucket for concrete evaluation. -/
def hydratedGroupBucket : Bucket := fun k =>
  if k = "k3" then some ⟨5, 0, 0⟩
  else if k = "totalCoffee" then some ⟨20, 0, 0⟩
  else none

/-- A hydrated `total` bucket for concrete evaluation. -/
def hydratedTotalBucket : Bucket := fun k =>
  if k = "totalCoffee" then some ⟨50, 0, 0⟩
  else if k = "totalVolume" then some ⟨100, 0, 0⟩
  else none

/-- A hydrated counters document for concrete evaluation. -/
def hydratedData : CountersData := fun g =>
  if g = "group1" then some hydratedGroupBucket
  else if g = "total" then some hydratedTotalBucket
  else none

/-- A machine state hydrated with `hydratedData` and no settings/recipes. -/
def hydratedState : MachineState :=
  initMachineState ⟨some ⟨hydratedData⟩, none, none⟩

/-- A counters document with a `group1` bucket but no `total` bucket. -/
def noTotalData : CountersData := fun g =>
  if g = "group1" then some hydratedGroupBucket else none

/-- A machine state hydrated with `noTotalData`: the `counters_data['total']`
lookup of `_update_and_send_counters` raises `KeyError` on it. -/
def noTotalState : MachineState :=
  initMachineState ⟨some ⟨noTotalData⟩, none, none⟩

/-- A recipes table: group1 has `targetTime['1'] = 230`. -/
def recipes230 : String → Option RecipeData := fun g =>
  if g = "group1" then some ⟨some (fun k => if k = "1" then some 230 else none)⟩
  else none

/-- A status document carrying only `recipes230`. -/
def recipes230Status : SimStatus := ⟨none, none, some recipes230⟩

/-- The values of the `residualFilterLiters` emissions on the maintenance
stream (`TelemetrySlow01`). -/
def filterLitersValues (ems : List Emission) : List TValue :=
  (ems.filter (fun e =>
    e.interface == "it.d8pro.device.TelemetrySlow01" &&
    e.path == "/manteinance/residualFilterLiters")).map (fun e => e.value)

/-- Maintenance settings with a zero water-filter duration. -/
def zeroFilterMant : ManteinanceSettings := ⟨none, some 0⟩

/-- A status document with an empty `total` bucket and `waterFilterDuration = 0`. -/
def zeroFilterStatus : SimStatus :=
  ⟨some ⟨fun g => if g = "total" then some (fun _ => none) else none⟩,
   some ⟨some ⟨some zeroFilterMant⟩⟩, none⟩

/-- The machine state built on `zeroFilterStatus`: `initial_filter_duration`
reads as 0 litres. -/
def zeroFilterState : MachineState := initMachineState zeroFilterStatus

/- ------------------------------------------------------------------ -/
/- Lemmas about the embedding's map operations and integer helpers.    -/
/- ------------------------------------------------------------------ -/

theorem bucket_set_self (b : Bucket) (k : String) (e : CounterEntry) :
    Bucket.set b k e k = some e := by
  simp [Bucket.set]

theorem bucket_set_ne (b : Bucket) (k k' : String) (e : CounterEntry)
    (h : k' ≠ k) : Bucket.set b k e k' = b k' := by
  simp [Bucket.set, h]

theorem countersData_set_self (d : CountersData) (g : String) (b : Bucket) :
    CountersData.set d g b g = some b := by
  simp [CountersData.set]

theorem countersData_set_ne (d : CountersData) (g g' : String) (b : Bucket)
    (h : g' ≠ g) : CountersData.set d g b g' = d g' := by
  simp [CountersData.set, h]

/-- A string starting with the character `k` is none of the three fixed
counter names used by the total bucket. -/
theorem kstring_ne (s r : String) (hr : ∀ l : List Char, r.data ≠ 'k' :: l) :
    "k" ++ s ≠ r := by
  intro h
  have h2 := congrArg String.data h
  rw [String.data_append] at h2
  exact hr s.data (by rw [← h2]; rfl)

theorem coffeeKey_ne_totalCoffee (ct : ℤ) : coffeeKey ct ≠ "totalCoffee" := by
  refine kstring_ne _ _ ?_
  intro l h
  have h2 : 't' = 'k' := by
    have h3 : ("totalCoffee" : String).data = 't' :: "otalCoffee".data := rfl
    rw [h3] at h
    exact (List.cons.injEq _ _ _ _ ▸ h).1
  simp at h2

theorem coffeeKey_ne_totalVolume (ct : ℤ) : coffeeKey ct ≠ "totalVolume" := by
  refine kstring_ne _ _ ?_
  intro l h
  have h2 : 't' = 'k' := by
    have h3 : ("totalVolume" : String).data = 't' :: "otalVolume".data := rfl
    rw [h3] at h
    exact (List.cons.injEq _ _ _ _ ▸ h).1
  simp at h2

theorem coffeeKey_ne_residual (ct : ℤ) :
    coffeeKey ct ≠ "residualCoffeeActivation" := by
  refine kstring_ne _ _ ?_
  intro l h
  have h2 : 'r' = 'k' := by
    have h3 : ("residualCoffeeActivation" : String).data
        = 'r' :: "esidualCoffeeActivation".data := rfl
    rw [h3] at h
    exact (List.cons.injEq _ _ _ _ ▸ h).1
  simp at h2

theorem pyInt_of_nonneg (q : ℚ) (h : 0 ≤ q) : pyInt q = ⌊q⌋ := by
  simp [pyInt, h]

theorem floor_le_pyRound (q : ℚ) : ⌊q⌋ ≤ pyRound q := by
  unfold pyRound
  split
  · exact le_refl _
  · split
    · omega
    · split <;> omega

theorem updateMaintenanceCounters_status (st : MachineState) (ft : ℤ) (t : ℚ) :
    (updateMaintenanceCounters st ft t).1.status = st.status := by
  unfold updateMaintenanceCounters
  dsimp only
  rcases h : st.status.counters with _ | cdoc <;> rfl

theorem updateMaintenanceCounters_litres (st : MachineState) (ft : ℤ) (t : ℚ) :
    (updateMaintenanceCounters st ft t).1.total_litres_tens_ml
      = st.total_litres_tens_ml + ft := by
  unfold updateMaintenanceCounters
  dsimp only
  rcases h : st.status.counters with _ | cdoc <;> rfl

theorem getResidualCoffeeSetting_mk (c : Option CountersDoc) (st : SimStatus) :
    getResidualCoffeeSetting ⟨c, st.settings, st.recipes⟩
      = getResidualCoffeeSetting st := rfl

theorem counterValue_congr (st st' : MachineState) (h : st.status = st'.status)
    (b k : String) : counterValue st b k = counterValue st' b k := by
  unfold counterValue
  rw [h]

/- ------------------------------------------------------------------ -/
/- C9: the demand model is total and maps closed hours to the evening  -/
/- band.                                                               -/
/- ------------------------------------------------------------------ -/

/-- C9: `_get_realistic_wait_time` is a total function of the hour, and for the
closed hours (23 and 0–6) it falls through to the evening band, so the wait is
drawn uniformly from `[1980, 3180]` (base 2580 ± 600, the 30-second floor not
binding) instead of failing or signalling the closed state. -/
theorem closed_hours_wait_bounds (h : ℤ) (hh : h = 23 ∨ (0 ≤ h ∧ h < 7)) :
    getRealisticWaitTimeBounds h = (1980, 3180) := by
  rcases hh with rfl | ⟨h0, h7⟩
  · decide
  · interval_cases h <;> decide

theorem closed_hours_wait_bounds_witness :
    getRealisticWaitTimeBounds 23 = (1980, 3180) :=
  closed_hours_wait_bounds 23 (Or.inl rfl)

/- ------------------------------------------------------------------ -/
/- C7: no two temperature updates within 600 seconds for one group.    -/
/- ------------------------------------------------------------------ -/

/-- C7: once an update time `last` is recorded for a group, a temperature check
at any time `now` with `now - last < 600` never fires, whatever interval the
check draws from `[600, 1200]`: the state and the emissions are untouched. -/
theorem temperature_no_refire_within_600 (temp : TempState) (group : String)
    (now last : ℚ) (update_interval : ℤ) (u : ℚ)
    (hlast : temp.last_temp_update group = some last)
    (h6 : 600 ≤ update_interval) (h12 : update_interval ≤ 1200)
    (hlt : now - last < 600) :
    checkAndUpdateTemperature temp group now update_interval u = (temp, []) := by
  unfold checkAndUpdateTemperature
  rw [hlast]
  have h6q : (600 : ℚ) ≤ (update_interval : ℚ) := by exact_mod_cast h6
  have hno : ¬ ((update_interval : ℚ) ≤ now - last) := by linarith
  simp [hno]

theorem temperature_no_refire_within_600_witness :
    checkAndUpdateTemperature tempState1 "group1" 1500 700 0 = (tempState1, []) :=
  temperature_no_refire_within_600 tempState1 "group1" 1500 1000 700 0 rfl
    (by norm_num) (by norm_num) (by norm_num)

/- ------------------------------------------------------------------ -/
/- C1: per-brew counter increments.                                    -/
/- ------------------------------------------------------------------ -/

/-- C1: on a hydrated counters document (group bucket with the `k{type}` and
`totalCoffee` counters, totals bucket with `totalCoffee`), a brew increments
the group's `k{type}`, the group's `totalCoffee` and the totals-level
`totalCoffee` each by exactly 2 when the coffee type is 3 or 4, and by exactly
1 for every other type in 1–7. -/
theorem brew_counter_increments (st : MachineState) (group : String)
    (ct ft : ℤ) (t : ℚ) (cdoc : CountersDoc) (gb tb : Bucket)
    (ek eg et : CounterEntry)
    (hc : st.status.counters = some cdoc)
    (hgb : cdoc.data group = some gb)
    (hk : gb (coffeeKey ct) = some ek)
    (hgt : gb "totalCoffee" = some eg)
    (ht : cdoc.data "total" = some tb)
    (htt : tb "totalCoffee" = some et)
    (hg : group ≠ "total")
    (h1 : 1 ≤ ct) (h7 : ct ≤ 7) :
    counterValue (updateAndSendCounters st group ct ft t).1 group (coffeeKey ct)
        = some (ek.value + (if ct = 3 ∨ ct = 4 then 2 else 1)) ∧
    counterValue (updateAndSendCounters st group ct ft t).1 group "totalCoffee"
        = some (eg.value + (if ct = 3 ∨ ct = 4 then 2 else 1)) ∧
    counterValue (updateAndSendCounters st group ct ft t).1 "total" "totalCoffee"
        = some (et.value + (if ct = 3 ∨ ct = 4 then 2 else 1)) := by
  have hinc : (if ct = 1 ∨ ct = 2 then (1 : ℚ) else if ct = 3 ∨ ct = 4 then 2 else 1)
      = (if ct = 3 ∨ ct = 4 then 2 else 1) := by
    by_cases h12 : ct = 1 ∨ ct = 2
    · have h34 : ¬ (ct = 3 ∨ ct = 4) := by omega
      rw [if_pos h12, if_neg h34]
    · rw [if_neg h12]
  unfold updateAndSendCounters
  rw [hc]
  dsimp only
  rw [hgb]
  dsimp only [Option.getD_some]
  rw [hk, bucket_set_ne _ _ _ _ (Ne.symm (coffeeKey_ne_totalCoffee ct)), hgt,
    countersData_set_ne _ _ _ _ (Ne.symm hg), ht]
  dsimp only
  rw [htt]
  dsimp only
  rw [bucket_set_ne _ "totalCoffee" "totalVolume" _ (by decide)]
  rcases h4 : tb "totalVolume" with _ | e4
  · dsimp only
    unfold updateResidualCoffeeActivation
    dsimp only
    rw [countersData_set_self]
    dsimp only [Option.getD_some]
    refine ⟨?_, ?_, ?_⟩
    · rw [counterValue_congr _ _ (updateMaintenanceCounters_status _ _ _)]
      unfold counterValue
      dsimp only
      rw [countersData_set_ne _ "total" group _ hg,
        countersData_set_ne _ "total" group _ hg, countersData_set_self]
      dsimp only
      rw [bucket_set_ne _ "totalCoffee" _ _ (coffeeKey_ne_totalCoffee ct),
        bucket_set_self]
      dsimp only
      rw [hinc]
    · rw [counterValue_congr _ _ (updateMaintenanceCounters_status _ _ _)]
      unfold counterValue
      dsimp only
      rw [countersData_set_ne _ "total" group _ hg,
        countersData_set_ne _ "total" group _ hg, countersData_set_self]
      dsimp only
      rw [bucket_set_self]
      dsimp only
      rw [hinc]
    · rw [counterValue_congr _ _ (updateMaintenanceCounters_status _ _ _)]
      unfold counterValue
      dsimp only
      rw [countersData_set_self]
      dsimp only
      rw [bucket_set_ne _ "residualCoffeeActivation" "totalCoffee" _ (by decide),
        bucket_set_self]
      dsimp only
      rw [hinc]
  · dsimp only
    unfold updateResidualCoffeeActivation
    dsimp only
    rw [countersData_set_self]
    dsimp only [Option.getD_some]
    refine ⟨?_, ?_, ?_⟩
    · rw [counterValue_congr _ _ (updateMaintenanceCounters_status _ _ _)]
      unfold counterValue
      dsimp only
      rw [countersData_set_ne _ "total" group _ hg,
        countersData_set_ne _ "total" group _ hg, countersData_set_self]
      dsimp only
      rw [bucket_set_ne _ "totalCoffee" _ _ (coffeeKey_ne_totalCoffee ct),
        bucket_set_self]
      dsimp only
      rw [hinc]
    · rw [counterValue_congr _ _ (updateMaintenanceCounters_status _ _ _)]
      unfold counterValue
      dsimp only
      rw [countersData_set_ne _ "total" group _ hg,
        countersData_set_ne _ "total" group _ hg, countersData_set_self]
      dsimp only
      rw [bucket_set_self]
      dsimp only
      rw [hinc]
    · rw [counterValue_congr _ _ (updateMaintenanceCounters_status _ _ _)]
      unfold counterValue
      dsimp only
      rw [countersData_set_self]
      dsimp only
      rw [bucket_set_ne _ "residualCoffeeActivation" "totalCoffee" _ (by decide),
        bucket_set_ne _ "totalVolume" "totalCoffee" _ (by decide),
        bucket_set_self]
      dsimp only
      rw [hinc]

theorem brew_counter_increments_witness :
    counterValue (updateAndSendCounters hydratedState "group1" 3 480 0).1 "group1"
        (coffeeKey 3) = some 7 ∧
    counterValue (updateAndSendCounters hydratedState "group1" 3 480 0).1 "group1"
        "totalCoffee" = some 22 ∧
    counterValue (updateAndSendCounters hydratedState "group1" 3 480 0).1 "total"
        "totalCoffee" = some 52 := by
  have h := brew_counter_increments hydratedState "group1" 3 480 0 ⟨hydratedData⟩
    hydratedGroupBucket hydratedTotalBucket ⟨5, 0, 0⟩ ⟨20, 0, 0⟩ ⟨50, 0, 0⟩
    rfl rfl rfl rfl rfl rfl (by decide) (by norm_num) (by norm_num)
  norm_num at h
  exact h

/- ------------------------------------------------------------------ -/
/- C2: residualCoffeeActivation decreases by exactly 1 per brew.       -/
/- ------------------------------------------------------------------ -/

/-- One brew through `_update_and_send_counters` on a document with a `total`
bucket decrements `residualCoffeeActivation` by exactly 1 (initializing it from
the maintenance setting on first use) and leaves the settings untouched. -/
theorem updateAndSendCounters_residual (st : MachineState) (g : String)
    (ct ft : ℤ) (t : ℚ) (cdoc : CountersDoc) (tb : Bucket)
    (hc : st.status.counters = some cdoc)
    (ht : cdoc.data "total" = some tb)
    (hg : g ≠ "total") :
    residualSlot (updateAndSendCounters st g ct ft t).1 =
      some (some ((match tb "residualCoffeeActivation" with
        | some e => e.value
        | none => (getResidualCoffeeSetting st.status : ℚ)) - 1)) ∧
    (updateAndSendCounters st g ct ft t).1.status.settings = st.status.settings := by
  unfold updateAndSendCounters
  rw [hc]
  dsimp only
  rw [countersData_set_ne _ g "total" _ (Ne.symm hg), ht]
  dsimp only
  rcases h3 : tb "totalCoffee" with _ | e3
  · dsimp only
    rcases h4 : tb "totalVolume" with _ | e4
    · dsimp only
      unfold updateResidualCoffeeActivation
      dsimp only
      rw [countersData_set_self]
      dsimp only [Option.getD_some]
      constructor
      · unfold residualSlot
        rw [updateMaintenanceCounters_status]
        dsimp only
        rw [countersData_set_self]
        dsimp only
        rw [bucket_set_self]
        dsimp only
        rw [getResidualCoffeeSetting_mk]
      · rw [updateMaintenanceCounters_status]
    · dsimp only
      unfold updateResidualCoffeeActivation
      dsimp only
      rw [countersData_set_self]
      dsimp only [Option.getD_some]
      rw [bucket_set_ne _ "totalVolume" "residualCoffeeActivation" _ (by decide)]
      constructor
      · unfold residualSlot
        rw [updateMaintenanceCounters_status]
        dsimp only
        rw [countersData_set_self]
        dsimp only
        rw [bucket_set_self]
        dsimp only
        rw [getResidualCoffeeSetting_mk]
      · rw [updateMaintenanceCounters_status]
  · dsimp only
    rw [bucket_set_ne _ "totalCoffee" "totalVolume" _ (by decide)]
    rcases h4 : tb "totalVolume" with _ | e4
    · dsimp only
      unfold updateResidualCoffeeActivation
      dsimp only
      rw [countersData_set_self]
      dsimp only [Option.getD_some]
      rw [bucket_set_ne _ "totalCoffee" "residualCoffeeActivation" _ (by decide)]
      constructor
      · unfold residualSlot
        rw [updateMaintenanceCounters_status]
        dsimp only
        rw [countersData_set_self]
        dsimp only
        rw [bucket_set_self]
        dsimp only
        rw [getResidualCoffeeSetting_mk]
      · rw [updateMaintenanceCounters_status]
    · dsimp only
      unfold updateResidualCoffeeActivation
      dsimp only
      rw [countersData_set_self]
      dsimp only [Option.getD_some]
      rw [bucket_set_ne _ "totalVolume" "residualCoffeeActivation" _ (by decide),
        bucket_set_ne _ "totalCoffee" "residualCoffeeActivation" _ (by decide)]
      constructor
      · unfold residualSlot
        rw [updateMaintenanceCounters_status]
        dsimp only
        rw [countersData_set_self]
        dsimp only
        rw [bucket_set_self]
        dsimp only
        rw [getResidualCoffeeSetting_mk]
      · rw [updateMaintenanceCounters_status]

/-- A machine state whose residual slot is hydrated decomposes into a counters
document, a `total` bucket and the optional counter value. -/
theorem residualSlot_elim (st : MachineState) (o : Option ℚ)
    (h : residualSlot st = some o) :
    ∃ cdoc tb, st.status.counters = some cdoc ∧ cdoc.data "total" = some tb ∧
      (match tb "residualCoffeeActivation" with
       | none => (none : Option ℚ)
       | some e => some e.value) = o := by
  unfold residualSlot at h
  rcases hc : st.status.counters with _ | cdoc
  · rw [hc] at h
    exact absurd h (by simp)
  · rw [hc] at h
    dsimp only at h
    rcases ht : cdoc.data "total" with _ | tb
    · rw [ht] at h
      exact absurd h (by simp)
    · rw [ht] at h
      dsimp only at h
      refine ⟨cdoc, tb, rfl, ht, ?_⟩
      rcases hr : tb "residualCoffeeActivation" with _ | e <;> rw [hr] at h <;>
        dsimp only at h ⊢ <;> exact Option.some.inj h

/-- Folding brews over a state whose `residualCoffeeActivation` counter is
present subtracts the number of brews from its value. -/
theorem applyBrews_residual (t : ℚ) :
    ∀ (brews : List (String × ℤ × ℤ)) (st : MachineState) (v : ℚ),
      residualSlot st = some (some v) →
      (∀ b ∈ brews, b.1 ≠ "total") →
      residualSlot (applyBrews st brews t) = some (some (v - brews.length)) := by
  intro brews
  induction brews with
  | nil =>
    intro st v h _
    simpa [applyBrews] using h
  | cons b bs ih =>
    intro st v h hgs
    obtain ⟨cdoc, tb, hc, ht, hm⟩ := residualSlot_elim st (some v) h
    have step := (updateAndSendCounters_residual st b.1 b.2.1 b.2.2 t cdoc tb hc ht
      (hgs b (by simp))).1
    have hv : (match tb "residualCoffeeActivation" with
        | some e => e.value
        | none => (getResidualCoffeeSetting st.status : ℚ)) = v := by
      cases hr : tb "residualCoffeeActivation" with
      | none =>
        rw [hr] at hm
        simp at hm
      | some e =>
        rw [hr] at hm
        dsimp only at hm ⊢
        exact Option.some.inj hm
    rw [hv] at step
    have hrec := ih (updateAndSendCounters st b.1 b.2.1 b.2.2 t).1 (v - 1) step
      (fun x hx => hgs x (by simp [hx]))
    rw [show applyBrews st (b :: bs) t
        = applyBrews (updateAndSendCounters st b.1 b.2.1 b.2.2 t).1 bs t from rfl,
      hrec]
    congr 2
    simp only [List.length_cons]
    push_cast
    ring

/-- C2: on a hydrated counters document with a `total` bucket whose
`residualCoffeeActivation` counter has not yet been created, any nonempty
sequence of N brews of mixed coffee types leaves
`residualCoffeeActivation = initial − N`, where `initial` is the
`residualCoffeeForManteinance` setting when present and 10000 otherwise —
one decrement per brew, independent of coffee type. -/
theorem residual_after_brews (st : MachineState)
    (brews : List (String × ℤ × ℤ)) (t : ℚ) (cdoc : CountersDoc) (tb : Bucket)
    (hc : st.status.counters = some cdoc)
    (ht : cdoc.data "total" = some tb)
    (hnone : tb "residualCoffeeActivation" = none)
    (hne : brews ≠ [])
    (hgroups : ∀ b ∈ brews, b.1 ≠ "total") :
    residualSlot (applyBrews st brews t) =
      some (some ((getResidualCoffeeSetting st.status : ℚ) - brews.length)) := by
  rcases brews with _ | ⟨b, bs⟩
  · exact absurd rfl hne
  have step := (updateAndSendCounters_residual st b.1 b.2.1 b.2.2 t cdoc tb hc ht
    (hgroups b (by simp))).1
  rw [hnone] at step
  dsimp only at step
  have hrec := applyBrews_residual t bs (updateAndSendCounters st b.1 b.2.1 b.2.2 t).1
    ((getResidualCoffeeSetting st.status : ℚ) - 1) step
    (fun x hx => hgroups x (by simp [hx]))
  rw [show applyBrews st (b :: bs) t
      = applyBrews (updateAndSendCounters st b.1 b.2.1 b.2.2 t).1 bs t from rfl,
    hrec]
  congr 2
  simp only [List.length_cons]
  push_cast
  ring

theorem residual_after_brews_witness :
    residualSlot (applyBrews hydratedState
      [("group1", 1, 400), ("group2", 5, 300)] 0) = some (some 9998) := by
  have h := residual_after_brews hydratedState
    [("group1", 1, 400), ("group2", 5, 300)] 0 ⟨hydratedData⟩ hydratedTotalBucket
    rfl rfl rfl (by simp) (by simp)
  rw [h]
  norm_num [getResidualCoffeeSetting, hydratedState, initMachineState]

/- ------------------------------------------------------------------ -/
/- C3: an error in one sub-step does NOT let the later sub-steps run.  -/
/- ------------------------------------------------------------------ -/

/-- C3 counterexample: on a document with a `group1` bucket but no `total`
bucket, the `counters_data['total']` lookup fails, and — contrary to the
claim — the later sub-steps do not execute: `residualCoffeeActivation` is
never created, the cumulative litres tally stays 0, nothing is emitted on the
maintenance stream or the `residualCoffeeActivation` path, while the group
counter update that preceded the failure is kept (`k3` went from 5 to 7). -/
theorem substep_error_counterexample :
    residualSlot (updateAndSendCounters noTotalState "group1" 3 480 0).1 = none ∧
    (updateAndSendCounters noTotalState "group1" 3 480 0).1.total_litres_tens_ml
      = 0 ∧
    ((updateAndSendCounters noTotalState "group1" 3 480 0).2.filter
      (fun e => e.interface == "it.d8pro.device.TelemetrySlow01")) = [] ∧
    ((updateAndSendCounters noTotalState "group1" 3 480 0).2.filter
      (fun e => e.path == "/residualCoffeeActivation")) = [] ∧
    counterValue (updateAndSendCounters noTotalState "group1" 3 480 0).1
      "group1" "k3" = some 7 := by
  refine ⟨rfl, rfl, rfl, rfl, ?_⟩
  have h : counterValue (updateAndSendCounters noTotalState "group1" 3 480 0).1
      "group1" "k3" = some (5 + 2) := rfl
  rw [h]
  norm_num

/-- C3 amended: an internal error in one sub-step of
`_update_and_send_counters` is caught and logged at the boundary of the whole
operation, so the brew cycle continues and the mutations already made are
kept; but the sub-steps after the failing point are skipped, not executed.
With no `total` bucket, the group `k{type}` and `totalCoffee` updates are
applied and emitted, then the `counters_data['total']` lookup fails and the
totals-level, residual-coffee and maintenance sub-steps never run. -/
theorem substep_error_skips_rest (st : MachineState) (g : String)
    (ct ft : ℤ) (t : ℚ) (cdoc : CountersDoc) (gb : Bucket)
    (ek eg : CounterEntry)
    (hc : st.status.counters = some cdoc)
    (ht : cdoc.data "total" = none)
    (hg : g ≠ "total")
    (hgb : cdoc.data g = some gb)
    (hk : gb (coffeeKey ct) = some ek)
    (hgt : gb "totalCoffee" = some eg)
    (h1 : 1 ≤ ct) (h7 : ct ≤ 7) :
    counterValue (updateAndSendCounters st g ct ft t).1 g (coffeeKey ct)
        = some (ek.value + (if ct = 3 ∨ ct = 4 then 2 else 1)) ∧
    counterValue (updateAndSendCounters st g ct ft t).1 g "totalCoffee"
        = some (eg.value + (if ct = 3 ∨ ct = 4 then 2 else 1)) ∧
    residualSlot (updateAndSendCounters st g ct ft t).1 = none ∧
    (updateAndSendCounters st g ct ft t).1.total_litres_tens_ml
        = st.total_litres_tens_ml ∧
    ((updateAndSendCounters st g ct ft t).2.map (fun e => e.path)) =
      ["/" ++ g ++ "/" ++ coffeeKey ct, "/" ++ g ++ "/totalCoffee"] := by
  have hinc : (if ct = 1 ∨ ct = 2 then (1 : ℚ) else if ct = 3 ∨ ct = 4 then 2 else 1)
      = (if ct = 3 ∨ ct = 4 then 2 else 1) := by
    by_cases h12 : ct = 1 ∨ ct = 2
    · have h34 : ¬ (ct = 3 ∨ ct = 4) := by omega
      rw [if_pos h12, if_neg h34]
    · rw [if_neg h12]
  unfold updateAndSendCounters
  rw [hc]
  dsimp only
  rw [hgb]
  dsimp only [Option.getD_some]
  rw [hk, bucket_set_ne _ _ _ _ (Ne.symm (coffeeKey_ne_totalCoffee ct)), hgt,
    countersData_set_ne _ _ _ _ (Ne.symm hg), ht]
  dsimp only
  refine ⟨?_, ?_, ?_, rfl, rfl⟩
  · unfold counterValue
    dsimp only
    rw [countersData_set_self]
    dsimp only
    rw [bucket_set_ne _ "totalCoffee" _ _ (coffeeKey_ne_totalCoffee ct),
      bucket_set_self]
    dsimp only
    rw [hinc]
  · unfold counterValue
    dsimp only
    rw [countersData_set_self]
    dsimp only
    rw [bucket_set_self]
    dsimp only
    rw [hinc]
  · unfold residualSlot
    dsimp only
    rw [countersData_set_ne _ g "total" _ (Ne.symm hg), ht]

theorem substep_error_skips_rest_witness :
    counterValue (updateAndSendCounters noTotalState "group1" 3 480 0).1 "group1"
        (coffeeKey 3)
      = some ((5 : ℚ) + (if (3 : ℤ) = 3 ∨ (3 : ℤ) = 4 then 2 else 1)) ∧
    counterValue (updateAndSendCounters noTotalState "group1" 3 480 0).1 "group1"
        "totalCoffee"
      = some ((20 : ℚ) + (if (3 : ℤ) = 3 ∨ (3 : ℤ) = 4 then 2 else 1)) ∧
    residualSlot (updateAndSendCounters noTotalState "group1" 3 480 0).1 = none ∧
    (updateAndSendCounters noTotalState "group1" 3 480 0).1.total_litres_tens_ml
      = noTotalState.total_litres_tens_ml ∧
    ((updateAndSendCounters noTotalState "group1" 3 480 0).2.map
      (fun e => e.path)) =
      ["/" ++ "group1" ++ "/" ++ coffeeKey 3, "/" ++ "group1" ++ "/totalCoffee"] :=
  substep_error_skips_rest noTotalState "group1" 3 480 0 ⟨noTotalData⟩
    hydratedGroupBucket ⟨5, 0, 0⟩ ⟨20, 0, 0⟩ rfl rfl (by decide) rfl rfl rfl
    (by norm_num) (by norm_num)

/- ------------------------------------------------------------------ -/
/- C4: recipe-based erogation times stay inside the claimed interval.  -/
/- ------------------------------------------------------------------ -/

/-- C4: for any group and coffee type 1–4 with a recipe `targetTime` entry,
every erogation time the code can draw lies in
`[max(target − round(target·f), 50), target + round(target·f)]`, with
`f = 0.15` for the simulator's resolver and `f = 0.35` for the web server's;
in particular, for `targetTime = 230` and `f = 0.15` the interval is
`[196, 264]`.  (The code truncates `target · f` where the claim rounds, and
truncation never exceeds rounding, so the drawn value stays inside the claimed
interval.) -/
theorem erog_time_in_claim_interval (status : SimStatus) (group : String)
    (ct target : ℤ) (recipes : String → Option RecipeData) (rd : RecipeData)
    (tt : String → Option ℤ) (r15 r35 : ℤ)
    (hrec : status.recipes = some recipes)
    (hgrp : recipes group = some rd)
    (htt : rd.targetTime = some tt)
    (htgt : tt (toString ct) = some target)
    (hct : ct = 1 ∨ ct = 2 ∨ ct = 3 ∨ ct = 4)
    (hpos : 0 ≤ target)
    (hr1 : (erogTimeBounds status group ct).1 ≤ r15)
    (hr2 : r15 ≤ (erogTimeBounds status group ct).2)
    (hw1 : (webErogTimeBounds status group ct).1 ≤ r35)
    (hw2 : r35 ≤ (webErogTimeBounds status group ct).2) :
    (max (target - pyRound ((target : ℚ) * (15 / 100))) 50 ≤ r15 ∧
      r15 ≤ target + pyRound ((target : ℚ) * (15 / 100))) ∧
    (max (target - pyRound ((target : ℚ) * (35 / 100))) 50 ≤ r35 ∧
      r35 ≤ target + pyRound ((target : ℚ) * (35 / 100))) := by
  have hbounds : erogTimeBounds status group ct =
      (max (target - pyInt ((target : ℚ) * (15 / 100))) 50,
       target + pyInt ((target : ℚ) * (15 / 100))) := by
    unfold erogTimeBounds
    rw [if_pos hct, hrec]
    dsimp only
    rw [hgrp]
    dsimp only
    rw [htt]
    dsimp only
    rw [htgt]
  have hwbounds : webErogTimeBounds status group ct =
      (max (target - pyInt ((target : ℚ) * (35 / 100))) 50,
       target + pyInt ((target : ℚ) * (35 / 100))) := by
    unfold webErogTimeBounds
    rw [if_pos hct, hrec]
    dsimp only
    rw [hgrp]
    dsimp only
    rw [htt]
    dsimp only
    rw [htgt]
  rw [hbounds] at hr1 hr2
  rw [hwbounds] at hw1 hw2
  have htq : (0 : ℚ) ≤ (target : ℚ) := by exact_mod_cast hpos
  have hx15 : (0 : ℚ) ≤ (target : ℚ) * (15 / 100) := by
    apply mul_nonneg htq
    norm_num
  have hx35 : (0 : ℚ) ≤ (target : ℚ) * (35 / 100) := by
    apply mul_nonneg htq
    norm_num
  have h15 : pyInt ((target : ℚ) * (15 / 100)) ≤ pyRound ((target : ℚ) * (15 / 100)) := by
    rw [pyInt_of_nonneg _ hx15]
    exact floor_le_pyRound _
  have h35 : pyInt ((target : ℚ) * (35 / 100)) ≤ pyRound ((target : ℚ) * (35 / 100)) := by
    rw [pyInt_of_nonneg _ hx35]
    exact floor_le_pyRound _
  rw [max_le_iff] at hr1 hw1
  refine ⟨⟨?_, ?_⟩, ⟨?_, ?_⟩⟩
  · rw [max_le_iff]
    constructor <;> omega
  · omega
  · rw [max_le_iff]
    constructor <;> omega
  · omega

theorem erog_time_in_claim_interval_witness :
    (max (230 - pyRound ((230 : ℚ) * (15 / 100))) 50 ≤ 200 ∧
      (200 : ℤ) ≤ 230 + pyRound ((230 : ℚ) * (15 / 100))) ∧
    (max (230 - pyRound ((230 : ℚ) * (35 / 100))) 50 ≤ 250 ∧
      (250 : ℤ) ≤ 230 + pyRound ((230 : ℚ) * (35 / 100))) := by
  have hb : erogTimeBounds recipes230Status "group1" 1 = (196, 264) := by
    have h : erogTimeBounds recipes230Status "group1" 1 =
        (max (230 - pyInt ((230 : ℚ) * (15 / 100))) 50,
         230 + pyInt ((230 : ℚ) * (15 / 100))) := rfl
    rw [h]
    norm_num [pyInt]
  have hwb : webErogTimeBounds recipes230Status "group1" 1 = (150, 310) := by
    have h : webErogTimeBounds recipes230Status "group1" 1 =
        (max (230 - pyInt ((230 : ℚ) * (35 / 100))) 50,
         230 + pyInt ((230 : ℚ) * (35 / 100))) := rfl
    rw [h]
    norm_num [pyInt]
  exact erog_time_in_claim_interval recipes230Status "group1" 1 230 recipes230
    ⟨some (fun k => if k = "1" then some 230 else none)⟩
    (fun k => if k = "1" then some 230 else none) 200 250
    rfl rfl rfl rfl (Or.inl rfl) (by norm_num)
    (by rw [hb]; norm_num) (by rw [hb]; norm_num)
    (by rw [hwb]; norm_num) (by rw [hwb]; norm_num)

/- ------------------------------------------------------------------ -/
/- C6: residualFilterLiters truncates toward zero, it does not floor.  -/
/- ------------------------------------------------------------------ -/

/-- C6 counterexample: with `waterFilterDuration = 0` and a single brew with
`flow_total = 350`, the emitted `residualFilterLiters` is `int(0 − 3.5) = −3`
(Python truncation toward zero), while the claimed
`floor(initial − cumulative_liters)` is −4. -/
theorem filter_liters_counterexample :
    filterLitersValues (updateAndSendCounters zeroFilterState "group1" 1 350 0).2
      = [TValue.int (-3)] ∧
    (⌊(zeroFilterState.initial_filter_duration : ℚ)
        - ((zeroFilterState.total_litres_tens_ml + 350 : ℤ) : ℚ) / 100⌋ : ℤ)
      = -4 := by
  have h0 : zeroFilterState.initial_filter_duration = 0 := rfl
  have hl : zeroFilterState.total_litres_tens_ml = 0 := rfl
  constructor
  · have h : filterLitersValues
        (updateAndSendCounters zeroFilterState "group1" 1 350 0).2
        = [TValue.int (pyInt ((zeroFilterState.initial_filter_duration : ℚ)
            - ((zeroFilterState.total_litres_tens_ml + 350 : ℤ) : ℚ) / 100))] := rfl
    rw [h, h0, hl]
    norm_num [pyInt, Int.ceil_neg]
  · rw [h0, hl]
    norm_num

/-- C6 amended: after each brew on a document with a `total` bucket, the
cumulative tally grows by the brew's `flow_total` and exactly one
`residualFilterLiters` point is emitted, whose value is the truncation toward
zero (Python `int()`) of `initial_filter_duration − cumulative_liters`; the
truncation agrees with the claimed floor whenever the difference is
non-negative, but not when it is negative and fractional. -/
theorem filter_liters_truncation (st : MachineState) (g : String)
    (ct ft : ℤ) (t : ℚ) (cdoc : CountersDoc) (tb : Bucket)
    (hc : st.status.counters = some cdoc)
    (ht : cdoc.data "total" = some tb)
    (hg : g ≠ "total") :
    (updateAndSendCounters st g ct ft t).1.total_litres_tens_ml
        = st.total_litres_tens_ml + ft ∧
    filterLitersValues (updateAndSendCounters st g ct ft t).2 =
      [TValue.int (pyInt ((st.initial_filter_duration : ℚ)
        - ((st.total_litres_tens_ml + ft : ℤ) : ℚ) / 100))] ∧
    (∀ q : ℚ, 0 ≤ q → pyInt q = ⌊q⌋) := by
  have hbC : (("it.d8pro.device.Counters02" : String) ==
      "it.d8pro.device.TelemetrySlow01") = false := by decide
  have hbP : (("/manteinance/residualPumpActivation" : String) ==
      "/manteinance/residualFilterLiters") = false := by decide
  unfold updateAndSendCounters
  rw [hc]
  dsimp only
  rw [countersData_set_ne _ g "total" _ (Ne.symm hg), ht]
  dsimp only
  rcases h3 : tb "totalCoffee" with _ | e3
  · dsimp only
    rcases h4 : tb "totalVolume" with _ | e4
    · dsimp only
      unfold updateResidualCoffeeActivation
      dsimp only
      rw [countersData_set_self]
      dsimp only [Option.getD_some]
      unfold updateMaintenanceCounters
      dsimp only
      refine ⟨rfl, ?_, fun q hq => pyInt_of_nonneg q hq⟩
      simp [filterLitersValues, hbC, hbP]
    · dsimp only
      unfold updateResidualCoffeeActivation
      dsimp only
      rw [countersData_set_self]
      dsimp only [Option.getD_some]
      unfold updateMaintenanceCounters
      dsimp only
      refine ⟨rfl, ?_, fun q hq => pyInt_of_nonneg q hq⟩
      simp [filterLitersValues, hbC, hbP]
  · dsimp only
    rw [bucket_set_ne _ "totalCoffee" "totalVolume" _ (by decide)]
    rcases h4 : tb "totalVolume" with _ | e4
    · dsimp only
      unfold updateResidualCoffeeActivation
      dsimp only
      rw [countersData_set_self]
      dsimp only [Option.getD_some]
      unfold updateMaintenanceCounters
      dsimp only
      refine ⟨rfl, ?_, fun q hq => pyInt_of_nonneg q hq⟩
      simp [filterLitersValues, hbC, hbP]
    · dsimp only
      unfold updateResidualCoffeeActivation
      dsimp only
      rw [countersData_set_self]
      dsimp only [Option.getD_some]
      unfold updateMaintenanceCounters
      dsimp only
      refine ⟨rfl, ?_, fun q hq => pyInt_of_nonneg q hq⟩
      simp [filterLitersValues, hbC, hbP]

theorem filter_liters_truncation_witness :
    (updateAndSendCounters hydratedState "group1" 1 400 0).1.total_litres_tens_ml
      = hydratedState.total_litres_tens_ml + 400 ∧
    filterLitersValues (updateAndSendCounters hydratedState "group1" 1 400 0).2 =
      [TValue.int (pyInt ((hydratedState.initial_filter_duration : ℚ)
        - ((hydratedState.total_litres_tens_ml + 400 : ℤ) : ℚ) / 100))] ∧
    (∀ q : ℚ, 0 ≤ q → pyInt q = ⌊q⌋) :=
  filter_liters_truncation hydratedState "group1" 1 400 0 ⟨hydratedData⟩
    hydratedTotalBucket rfl rfl (by decide)

/- ------------------------------------------------------------------ -/
/- C5: temperature tenths are a rounding of temp * 10.                 -/
/- ------------------------------------------------------------------ -/

theorem pyInt_intCast (n : ℤ) : pyInt (n : ℚ) = n := by
  unfold pyInt
  split
  · exact Int.floor_intCast n
  · exact Int.ceil_intCast n

theorem pyRound_intCast (n : ℤ) : pyRound (n : ℚ) = n := by
  unfold pyRound
  rw [Int.floor_intCast]
  have h : (n : ℚ) - n = 0 := by ring
  rw [h]
  norm_num

theorem pyRound1_mul_ten (x : ℚ) : pyRound1 x * 10 = (pyRound (x * 10) : ℚ) := by
  unfold pyRound1
  field_simp

/-- C5: when a temperature update fires for a group, the recorded Celsius
value is `setpoint + u` rounded to one decimal, and the emitted tenths value
equals `round(temp * 10)` — the conversion behaves as a rounding of
`temp * 10`, because `temp * 10` is exactly the integer `round((setpoint+u)
* 10)`, on which `int()` and `round()` agree. -/
theorem temperature_tenths_rounding (temp : TempState) (group : String)
    (now u : ℚ) (hu1 : -5 ≤ u) (hu2 : u ≤ 5) :
    (updateGroupTemperature temp group now u).2 =
      [⟨"it.d8pro.device.TelemetryFast01", "/" ++ group ++ "/currentTemp",
        TValue.int (pyRound (pyRound1 (getTemperatureSetpoint group + u) * 10)),
        now⟩] ∧
    (updateGroupTemperature temp group now u).1.current_temps group
      = some (pyRound1 (getTemperatureSetpoint group + u)) := by
  have key : pyInt (pyRound1 (getTemperatureSetpoint group + u) * 10)
      = pyRound (pyRound1 (getTemperatureSetpoint group + u) * 10) := by
    rw [pyRound1_mul_ten, pyInt_intCast, pyRound_intCast]
  constructor
  · unfold updateGroupTemperature
    dsimp only
    rw [key]
  · unfold updateGroupTemperature
    dsimp only
    rw [if_pos rfl]

theorem temperature_tenths_rounding_witness :
    (updateGroupTemperature tempState0 "group1" 0 (3 / 10)).2 =
      [⟨"it.d8pro.device.TelemetryFast01", "/" ++ "group1" ++ "/currentTemp",
        TValue.int (pyRound (pyRound1 (getTemperatureSetpoint "group1" + 3 / 10)
          * 10)), 0⟩] ∧
    (updateGroupTemperature tempState0 "group1" 0 (3 / 10)).1.current_temps
        "group1"
      = some (pyRound1 (getTemperatureSetpoint "group1" + 3 / 10)) :=
  temperature_tenths_rounding tempState0 "group1" 0 (3 / 10) (by norm_num)
    (by norm_num)

/- ------------------------------------------------------------------ -/
/- C8: invalid manual-brew input is rejected without side effects.     -/
/- ------------------------------------------------------------------ -/

/-- C8: a `/api/brew_coffee` request whose group is not `group1`–`group3` or
whose coffee type is outside `1..7` is answered with an error; the simulator
state is unchanged and no telemetry is emitted. -/
theorem invalid_manual_brew_rejected (sim : Option MachineState)
    (connected : Bool) (req : BrewRequest) (erog_time flow_total : ℤ)
    (flow_draws : ℕ → ℤ) (t : ℚ)
    (hbad : (∃ v, req.coffee_type = some v ∧ (v < 1 ∨ 7 < v)) ∨
      ¬ (req.group.getD "group1" = "group1" ∨ req.group.getD "group1" = "group2" ∨
         req.group.getD "group1" = "group3")) :
    ∃ msg code,
      brewCoffeeRoute sim connected (some req) erog_time flow_total flow_draws t
        = (.err msg code, sim, []) := by
  rcases hbad with ⟨v, hv, hrange⟩ | hgrp
  · have hc : v = 0 ∨ v < 1 ∨ 7 < v := by omega
    refine ⟨"Invalid coffee type. Must be 1-7", 400, ?_⟩
    simp only [brewCoffeeRoute, hv]
    rw [if_pos hc]
  · cases hct : req.coffee_type with
    | none =>
      exact ⟨"Invalid coffee type. Must be 1-7", 400,
        by simp only [brewCoffeeRoute, hct]⟩
    | some v =>
      by_cases hc : v = 0 ∨ v < 1 ∨ 7 < v
      · refine ⟨"Invalid coffee type. Must be 1-7", 400, ?_⟩
        simp only [brewCoffeeRoute, hct]
        rw [if_pos hc]
      · refine ⟨"Invalid group. Must be group1, group2, or group3", 400, ?_⟩
        simp only [brewCoffeeRoute, hct]
        rw [if_neg hc, if_pos hgrp]

theorem invalid_manual_brew_rejected_witness :
    ∃ msg code,
      brewCoffeeRoute none true (some ⟨some 3, some "group9"⟩) 200 400
        (fun _ => 10) 0 = (.err msg code, none, []) :=
  invalid_manual_brew_rejected none true ⟨some 3, some "group9"⟩ 200 400
    (fun _ => 10) 0 (Or.inr (by decide))

/- ------------------------------------------------------------------ -/
/- C10: a brew without a counters section emits fast telemetry only.   -/
/- ------------------------------------------------------------------ -/

theorem checkAndUpdateTemperature_fast_only (temp : TempState) (group : String)
    (now : ℚ) (ui : ℤ) (u : ℚ) :
    ∀ e ∈ (checkAndUpdateTemperature temp group now ui u).2,
      e.interface = "it.d8pro.device.TelemetryFast01" := by
  unfold checkAndUpdateTemperature updateGroupTemperature
  rcases temp.last_temp_update group with _ | last
  · simp
  · dsimp only
    split
    · simp
    · simp

/-- C10: when the status document lacks a `counters` section, a brew on a
connected device leaves the machine state untouched and the counter-update
operation is a no-op with no emissions; the brew still emits the three fast
telemetry points first, and nothing at all is emitted on the counters stream
(`Counters02`) or the maintenance stream (`TelemetrySlow01`). -/
theorem brew_without_counters (st : MachineState) (temp : TempState)
    (group : String) (ct erog ft ui : ℤ) (u t : ℚ)
    (hc : st.status.counters = none) :
    updateAndSendCounters st group ct ft t = (st, []) ∧
    (brewCoffee st temp true group ct erog ft ui u t).1 = st ∧
    (brewCoffee st temp true group ct erog ft ui u t).2.2.take 3 =
      [⟨"it.d8pro.device.TelemetryFast01", "/" ++ group ++ "/coffeeType",
        .int ct, t⟩,
       ⟨"it.d8pro.device.TelemetryFast01", "/" ++ group ++ "/erogTime",
        .int erog, t⟩,
       ⟨"it.d8pro.device.TelemetryFast01", "/" ++ group ++ "/flowTotal",
        .int ft, t⟩] ∧
    (brewCoffee st temp true group ct erog ft ui u t).2.2.filter
      (fun e => e.interface == "it.d8pro.device.Counters02") = [] ∧
    (brewCoffee st temp true group ct erog ft ui u t).2.2.filter
      (fun e => e.interface == "it.d8pro.device.TelemetrySlow01") = [] := by
  have hupd : updateAndSendCounters st group ct ft t = (st, []) := by
    unfold updateAndSendCounters
    rw [hc]
  have htemp := checkAndUpdateTemperature_fast_only temp group t ui u
  have hnil1 : (checkAndUpdateTemperature temp group t ui u).2.filter
      (fun e => e.interface == "it.d8pro.device.Counters02") = [] := by
    rw [List.filter_eq_nil_iff]
    intro e he
    rw [htemp e he]
    decide
  have hnil2 : (checkAndUpdateTemperature temp group t ui u).2.filter
      (fun e => e.interface == "it.d8pro.device.TelemetrySlow01") = [] := by
    rw [List.filter_eq_nil_iff]
    intro e he
    rw [htemp e he]
    decide
  have hb1 : (("it.d8pro.device.TelemetryFast01" : String)
      == "it.d8pro.device.Counters02") = false := by decide
  have hb2 : (("it.d8pro.device.TelemetryFast01" : String)
      == "it.d8pro.device.TelemetrySlow01") = false := by decide
  refine ⟨hupd, ?_, ?_, ?_, ?_⟩
  · simp [brewCoffee, hupd]
  · simp [brewCoffee, hupd]
  · simp [brewCoffee, hupd, hb1, hnil1]
  · simp [brewCoffee, hupd, hb2, hnil2]

theorem brew_without_counters_witness :
    updateAndSendCounters noCountersState "group1" 2 450 0 = (noCountersState, []) ∧
    (brewCoffee noCountersState tempState0 true "group1" 2 210 450 800 0 0).1
      = noCountersState ∧
    (brewCoffee noCountersState tempState0 true "group1" 2 210 450 800 0 0).2.2.take 3 =
      [⟨"it.d8pro.device.TelemetryFast01", "/" ++ "group1" ++ "/coffeeType",
        .int 2, 0⟩,
       ⟨"it.d8pro.device.TelemetryFast01", "/" ++ "group1" ++ "/erogTime",
        .int 210, 0⟩,
       ⟨"it.d8pro.device.TelemetryFast01", "/" ++ "group1" ++ "/flowTotal",
        .int 450, 0⟩] ∧
    (brewCoffee noCountersState tempState0 true "group1" 2 210 450 800 0 0).2.2.filter
      (fun e => e.interface == "it.d8pro.device.Counters02") = [] ∧
    (brewCoffee noCountersState tempState0 true "group1" 2 210 450 800 0 0).2.2.filter
      (fun e => e.interface == "it.d8pro.device.TelemetrySlow01") = [] :=
  brew_without_counters noCountersState tempState0 "group1" 2 210 450 800 0 0 rfl

end CoffeeSim
